import Mathlib

/-
Shallow embedding of the AI-backend repository (FastAPI + OpenAI + SQLite).

Each definition translates one function of the source:
  - `validate_prompt`            from src/models/schemas.py (AskAIRequest.validate_prompt)
  - `askAIRequestValidate`       the pydantic Field length constraints plus the validator
  - `attemptOnce` / `generate_response`
                                 from src/services/openai_service.py (generate_response,
                                 including the tenacity retry decorator)
  - `get_usage_stats` / `usage_stats_keys`
                                 from src/services/openai_service.py (get_usage_stats)
  - `process_ai_request`         from src/controllers/ai_controller.py
  - `save_conversation`, `get_all_conversations`, `get_conversation_count`,
    `clear_all_conversations`    from src/services/database_service.py
  - `controller_get_all_conversations`
                                 from src/controllers/conversation_controller.py
  - `ask_ai`, `health_check`     from src/routes/ai_routes.py together with the
                                 validation handler of src/main.py

Effects are made explicit: the upstream OpenAI call becomes a list of
`UpstreamOutcome` values (one per attempt), the wall clock becomes a `now`
argument, the SQLite database becomes a `DBState` value, and raised Python
exceptions become `Except` results.
-/

/-- Python `str.strip()` whitespace set (ASCII part, which covers every input
used in the development). -/
def pyIsSpace (c : Char) : Bool :=
  c = ' ' || c = '\t' || c = '\n' || c = '\r' || c = '\x0b' || c = '\x0c'

/-- Drop leading characters for which `pyIsSpace` holds. -/
def stripLeft : List Char → List Char
  | [] => []
  | c :: cs => if pyIsSpace c then stripLeft cs else c :: cs

/-- Python `str.strip()` on the character list. -/
def pyStripList (l : List Char) : List Char :=
  ((stripLeft l).reverse |> stripLeft).reverse

/-- Python `str.strip()`. -/
def pyStrip (s : String) : String :=
  String.mk (pyStripList s.data)

/-- Character-list version of Python `needle in haystack` starting position
check: does `haystack` start with `needle`? -/
def startsWithList : List Char → List Char → Bool
  | [], _ => true
  | _ :: _, [] => false
  | n :: ns, h :: hs => n == h && startsWithList ns hs

/-- Substring search, the semantics of `re.search` on a literal pattern and of
Python `needle in haystack`. -/
def containsSub (needle : List Char) : List Char → Bool
  | [] => startsWithList needle []
  | c :: cs => startsWithList needle (c :: cs) || containsSub needle cs

/-- ASCII lowercasing of a character list (Python `str.lower()` on the ASCII
range, matching `re.IGNORECASE` for the patterns of the source). -/
def toLowerList (l : List Char) : List Char :=
  l.map Char.toLower

/-- Length of the maximal prefix of the list consisting of the character `c`. -/
def leadRun (c : Char) : List Char → Nat
  | [] => 0
  | d :: ds => if d = c then leadRun c ds + 1 else 0

/-- Does the list contain, at some position, a run of at least `k` consecutive
identical characters whose character satisfies `p`?  With
`p c = (c != newline)` this is exactly the Python regex search
`re.search of (.)\1{49,}` for `k = 50`: the dot of the pattern does not match a
newline, and the backreference repeats the captured character. -/
def hasRunGe (k : Nat) (p : Char → Bool) : List Char → Bool
  | [] => false
  | c :: cs => (p c && decide (k ≤ 1 + leadRun c cs)) || hasRunGe k p cs

/-- The `[^>]*>` part of the script-tag pattern: skip characters other than
a closing angle bracket, then consume one; `none` when no bracket occurs. -/
def skipToGt : List Char → Option (List Char)
  | [] => none
  | c :: cs => if c = '>' then some cs else skipToGt cs

/-- The lazy tail of the script-tag pattern: does a closing script tag occur
before any newline?  (The dot of the pattern does not match a newline.) -/
def closeBeforeNewline : List Char → Bool
  | [] => false
  | c :: cs =>
    startsWithList (("</script>").data) (c :: cs) || (c != '\n' && closeBeforeNewline cs)

/-- Search for the script-tag pattern of schemas.py (to be run on the
lowercased string, matching the IGNORECASE flag). -/
def scriptTagMatch : List Char → Bool
  | [] => false
  | c :: cs =>
    (startsWithList (("<script").data) (c :: cs) &&
      (match skipToGt (List.drop 7 (c :: cs)) with
       | none => false
       | some rest => closeBeforeNewline rest)) ||
    scriptTagMatch cs

/-- The three harmful-content pattern searches of AskAIRequest.validate_prompt
(schemas.py lines 30-38), all case-insensitive. -/
def harmfulMatch (l : List Char) : Bool :=
  scriptTagMatch (toLowerList l) ||
  containsSub (("javascript:").data) (toLowerList l) ||
  containsSub (("data:text/html").data) (toLowerList l)

/-- Reasons for which AskAIRequest.validate_prompt raises ValueError, in the
order the source checks them. -/
inductive PromptError where
  | required
  | emptyOrWhitespace
  | insufficientContent
  | harmfulContent
  | excessiveRepetition
  deriving DecidableEq

/-- AskAIRequest.validate_prompt of src/models/schemas.py: the ordered checks
and, on success, the stripped prompt. -/
def validate_prompt (v : String) : Except PromptError String :=
  if v = "" then .error .required
  else if pyStrip v = "" then .error .emptyOrWhitespace
  else if (pyStrip v).length < 2 then .error .insufficientContent
  else if harmfulMatch v.data = true then .error .harmfulContent
  else if hasRunGe 50 (fun c => c != '\n') v.data = true then .error .excessiveRepetition
  else .ok (pyStrip v)

/-- Schema-level failure of the request body: the pydantic Field length bounds
(min_length 1, max_length 4000) or a ValueError of the custom validator.  In
FastAPI both surface as a RequestValidationError before the route handler
runs. -/
inductive SchemaError where
  | fieldLength
  | promptInvalid (e : PromptError)
  deriving DecidableEq

/-- Parsing the request body into an AskAIRequest: Field constraints, then the
custom validator; on success the prompt field holds the stripped string. -/
def askAIRequestValidate (prompt : String) : Except SchemaError String :=
  if prompt.length < 1 || prompt.length > 4000 then .error .fieldLength
  else
    match validate_prompt prompt with
    | .error e => .error (.promptInvalid e)
    | .ok p => .ok p

/-- The Python exception classes that can cross the boundaries modelled here. -/
inductive PyExc where
  | valueError (msg : String)
  | runtimeError (msg : String)
  | apiTimeoutError (msg : String)
  | apiConnectionError (msg : String)
  deriving DecidableEq

/-- The two usage counters of OpenAIService (openai_service.py lines 35-37). -/
structure UsageState where
  request_count : Nat
  total_tokens_used : Nat
  deriving DecidableEq

/-- Outcome of one upstream chat-completions call: either a reply (content and
optional token usage) or one of the exception classes the source handles. -/
inductive UpstreamOutcome where
  | completion (content : String) (usage : Option Nat)
  | authenticationError (msg : String)
  | rateLimitError (msg : String)
  | apiTimeout (msg : String)
  | apiConnection (msg : String)
  | openaiError (msg : String)
  | asyncioTimeout
  | unexpectedExc (msg : String)
  deriving DecidableEq

/-- Message of the RuntimeError raised for a generic OpenAIError
(openai_service.py lines 128-139), keyed off substrings of the message. -/
def openaiErrMsg (model msg : String) : String :=
  if containsSub (("model").data) (toLowerList msg.data) &&
     containsSub (("not found").data) (toLowerList msg.data) then
    ("The specified model \x27") ++ model ++
      ("\x27 is not available. Please check your model configuration.")
  else if containsSub (("content_filter").data) (toLowerList msg.data) then
    ("Your prompt was filtered due to content policy. Please rephrase your request.")
  else if containsSub (("context_length").data) (toLowerList msg.data) then
    ("Your prompt is too long for the selected model. Please shorten your prompt.")
  else
    ("AI service error: ") ++ msg

/-- One execution of the body of OpenAIService.generate_response
(openai_service.py lines 45-147) given the outcome of the upstream call.
Every except clause converts its exception into a RuntimeError (or the leading
check raises a ValueError), so an APITimeoutError or APIConnectionError never
escapes the body.  The request counter is incremented before the call; the
token counter is incremented only after the response-shape checks pass. -/
def attemptOnce (model : String) (st : UsageState) (prompt : String)
    (o : UpstreamOutcome) : UsageState × Except PyExc String :=
  if pyStrip prompt = "" then
    (st, .error (.valueError ("Prompt cannot be empty")))
  else
    let st1 : UsageState := { st with request_count := st.request_count + 1 }
    match o with
    | .completion content usage =>
      if content = "" then
        (st1, .error (.runtimeError
          ("An unexpected error occurred while processing your request: Empty response content from OpenAI API")))
      else
        let st2 : UsageState :=
          match usage with
          | some n => { st1 with total_tokens_used := st1.total_tokens_used + n }
          | none => st1
        (st2, .ok (pyStrip content))
    | .authenticationError _ =>
      (st1, .error (.runtimeError
        ("Invalid API key or authentication failed. Please check your OpenAI API key.")))
    | .rateLimitError msg =>
      if containsSub (("quota").data) (toLowerList msg.data) then
        (st1, .error (.runtimeError
          ("API quota exceeded. Please check your OpenAI account billing and usage limits.")))
      else
        (st1, .error (.runtimeError
          ("Rate limit exceeded. Please wait a moment before trying again.")))
    | .apiTimeout _ =>
      (st1, .error (.runtimeError
        ("AI service request timed out. Please try again with a shorter prompt.")))
    | .apiConnection _ =>
      (st1, .error (.runtimeError
        ("Unable to connect to AI service. Please check your internet connection and try again.")))
    | .openaiError msg =>
      (st1, .error (.runtimeError (openaiErrMsg model msg)))
    | .asyncioTimeout =>
      (st1, .error (.runtimeError ("Request timed out. Please try again.")))
    | .unexpectedExc msg =>
      (st1, .error (.runtimeError
        (("An unexpected error occurred while processing your request: ") ++ msg)))

/-- The retry condition of the tenacity decorator (openai_service.py lines
39-44): retry only when the escaping exception is an APITimeoutError or an
APIConnectionError. -/
def retry_if_transient (e : PyExc) : Bool :=
  match e with
  | .apiTimeoutError _ => true
  | .apiConnectionError _ => true
  | _ => false

deriving instance DecidableEq for Except

/-- Result of a call to the decorated generate_response: final counter state,
result or escaping exception, and the number of attempts executed. -/
structure GenResult where
  state : UsageState
  result : Except PyExc String
  attempts : Nat
  deriving DecidableEq

/-- The tenacity retry loop: at most `fuel` attempts remain; the outcome list
supplies one upstream outcome per attempt. -/
def genAttempts (model prompt : String) :
    Nat → UsageState → List UpstreamOutcome → GenResult
  | 0, st, _ =>
    { state := st, result := .error (.runtimeError ("retry fuel exhausted")), attempts := 0 }
  | Nat.succ fuel, st, outs =>
    let o := outs.headD (.unexpectedExc ("missing outcome"))
    let step := attemptOnce model st prompt o
    match step.2 with
    | .ok v => { state := step.1, result := .ok v, attempts := 1 }
    | .error e =>
      if retry_if_transient e && decide (0 < fuel) then
        let rest := genAttempts model prompt fuel step.1 outs.tail
        { state := rest.state, result := rest.result, attempts := rest.attempts + 1 }
      else
        { state := step.1, result := .error e, attempts := 1 }

/-- OpenAIService.generate_response under its @retry decorator:
stop_after_attempt(3). -/
def generate_response (model prompt : String) (st : UsageState)
    (outs : List UpstreamOutcome) : GenResult :=
  genAttempts model prompt 3 st outs

/-- The keys of the dictionary returned by OpenAIService.get_usage_stats
(openai_service.py lines 233-245). -/
def usage_stats_keys : List String :=
  [("total_requests"), ("total_tokens_used"), ("average_tokens_per_request"),
   ("configuration")]

/-- The two counter reads of get_usage_stats. -/
def get_usage_stats (st : UsageState) : Nat × Nat :=
  (st.request_count, st.total_tokens_used)

/-- Token count a given upstream outcome contributes to total_tokens_used:
only a completion with non-empty content and reported usage counts. -/
def tokensReported (o : UpstreamOutcome) : Nat :=
  match o with
  | .completion content (some n) => if content = "" then 0 else n
  | _ => 0

/-- The AskAIResponse pydantic model (schemas.py lines 46-51); the timestamp
is carried as its serialized instant. -/
structure AskAIResponse where
  prompt : String
  response : String
  timestamp : String
  model : String
  deriving DecidableEq

/-- The arguments the controller passes to DatabaseService.save_conversation. -/
structure SaveCall where
  prompt : String
  response : String
  model : String
  deriving DecidableEq

/-- What AIController.process_ai_request produces: the returned response or
escaping exception, the save call it issued (if any), and the warning it
logged when the save failed. -/
structure ProcessResult where
  result : Except PyExc AskAIResponse
  saveCall : Option SaveCall
  warnLog : Option String
  deriving DecidableEq

/-- AIController.process_ai_request (ai_controller.py lines 16-71).  The AI
Client result and the store save result are the collaborator outcomes; `now`
is the instant read at response construction.  A save failure is caught,
logged, and does not change the returned value. -/
def process_ai_request (prompt : String) (genResult : Except PyExc String)
    (saveResult : Except String Nat) (now : String) : ProcessResult :=
  if pyStrip prompt = "" then
    { result := .error (.valueError ("Prompt cannot be empty or contain only whitespace")),
      saveCall := none, warnLog := none }
  else
    match genResult with
    | .error e => { result := .error e, saveCall := none, warnLog := none }
    | .ok ai =>
      { result := .ok { prompt := prompt, response := ai, timestamp := now,
                        model := ("gpt-3.5-turbo") },
        saveCall := some { prompt := prompt, response := ai, model := ("gpt-3.5-turbo") },
        warnLog :=
          match saveResult with
          | .ok _ => none
          | .error msg => some (("Failed to save conversation to database: ") ++ msg) }

/-- One row of the conversations table (database_service.py lines 41-50). -/
structure DBRow where
  id : Nat
  prompt : String
  response : String
  timestamp : String
  model : String
  deriving DecidableEq

/-- The SQLite state the service manipulates: the rows and the AUTOINCREMENT
sequence value recorded in sqlite_sequence. -/
structure DBState where
  rows : List DBRow
  seq : Nat
  deriving DecidableEq

/-- DatabaseService.save_conversation (database_service.py lines 60-85): the
AUTOINCREMENT id is one past the recorded sequence value; `now` is the
datetime.now().isoformat() instant read inside the function.  Returns the
assigned id and the new state. -/
def save_conversation (st : DBState) (prompt response model now : String) :
    Nat × DBState :=
  let id := st.seq + 1
  (id, { rows := st.rows ++ [{ id := id, prompt := prompt, response := response,
                               timestamp := now, model := model }],
         seq := id })

/-- Insert a row into a list kept in descending timestamp order. -/
def insertDesc (r : DBRow) : List DBRow → List DBRow
  | [] => [r]
  | x :: xs => if x.timestamp ≤ r.timestamp then r :: x :: xs else x :: insertDesc r xs

/-- Sort rows by timestamp descending, the ORDER BY timestamp DESC of
get_all_conversations. -/
def sortByTimestampDesc : List DBRow → List DBRow
  | [] => []
  | x :: xs => insertDesc x (sortByTimestampDesc xs)

/-- DatabaseService.get_all_conversations (database_service.py lines 87-115). -/
def get_all_conversations (st : DBState) : List DBRow :=
  sortByTimestampDesc st.rows

/-- DatabaseService.get_conversation_count (database_service.py lines 117-133). -/
def get_conversation_count (st : DBState) : Nat :=
  st.rows.length

/-- DatabaseService.clear_all_conversations (database_service.py lines
135-169): count, then — only when the count is positive — delete every row and
the sqlite_sequence entry (resetting the AUTOINCREMENT sequence); return the
pre-deletion count. -/
def clear_all_conversations (st : DBState) : Nat × DBState :=
  let count := st.rows.length
  if 0 < count then (count, { rows := [], seq := 0 })
  else (count, st)

/-- The ConversationsResponse model built by
ConversationController.get_all_conversations (conversation_controller.py
lines 13-39). -/
structure ConversationsResponse where
  conversations : List DBRow
  total_count : Nat
  deriving DecidableEq

/-- ConversationController.get_all_conversations: list, then count the listed
records. -/
def controller_get_all_conversations (st : DBState) : ConversationsResponse :=
  let conversations := get_all_conversations st
  { conversations := conversations, total_count := conversations.length }

/-- The pipeline behind POST /api/ask-ai once the body parsed: the controller
invoked with the AI Client result for the validated prompt. -/
def handle_ask (cfgModel prompt : String) (st : UsageState)
    (outs : List UpstreamOutcome) (save : Except String Nat) (now : String) :
    ProcessResult :=
  process_ai_request prompt (generate_response cfgModel prompt st outs).result save now

/-- The wire-level reply of a route: HTTP status, the error label of the body,
and the machine-readable error_code field when present. -/
structure RouteResult where
  status : Nat
  error : Option String
  error_code : Option String
  deriving DecidableEq

/-- The error_code chosen by the ValueError branch of the ask_ai route
(ai_routes.py lines 88-111), keyed off substrings of the message. -/
def valueErrorCode (msg : String) : String :=
  if containsSub (("empty").data) (toLowerList msg.data) ||
     containsSub (("whitespace").data) (toLowerList msg.data) then ("EMPTY_PROMPT")
  else if containsSub (("meaningful characters").data) (toLowerList msg.data) then
    ("INSUFFICIENT_CONTENT")
  else if containsSub (("harmful content").data) (toLowerList msg.data) then
    ("HARMFUL_CONTENT")
  else if containsSub (("repetition").data) (toLowerList msg.data) then
    ("EXCESSIVE_REPETITION")
  else ("INVALID_INPUT")

/-- The status and error_code chosen by the RuntimeError branch of the ask_ai
route (ai_routes.py lines 112-145). -/
def runtimeErrorStatus (msg : String) : Nat × String :=
  if containsSub (("rate_limit").data) (toLowerList msg.data) then
    (429, ("RATE_LIMIT_EXCEEDED"))
  else if containsSub (("quota").data) (toLowerList msg.data) then
    (429, ("QUOTA_EXCEEDED"))
  else if containsSub (("timeout").data) (toLowerList msg.data) then
    (504, ("REQUEST_TIMEOUT"))
  else if containsSub (("api key").data) (toLowerList msg.data) ||
          containsSub (("invalid").data) (toLowerList msg.data) then
    (401, ("INVALID_API_KEY"))
  else (503, ("AI_SERVICE_ERROR"))

/-- POST /api/ask-ai end to end: body parsing into AskAIRequest (a failure is
a RequestValidationError handled by validation_exception_handler of main.py,
status 422 with no error_code field), then the route handler of
ai_routes.py mapping the controller outcome to a status and error_code. -/
def ask_ai (cfgModel rawPrompt : String) (st : UsageState)
    (outs : List UpstreamOutcome) (save : Except String Nat) (now : String) :
    RouteResult :=
  match askAIRequestValidate rawPrompt with
  | .error _ => { status := 422, error := some ("Validation Error"), error_code := none }
  | .ok p =>
    match (handle_ask cfgModel p st outs save now).result with
    | .ok _ => { status := 200, error := none, error_code := none }
    | .error (.valueError msg) =>
      { status := 400, error := some ("Invalid Input"),
        error_code := some (valueErrorCode msg) }
    | .error (.runtimeError msg) =>
      { status := (runtimeErrorStatus msg).1, error := some ("AI Service Error"),
        error_code := some ((runtimeErrorStatus msg).2) }
    | .error _ =>
      { status := 500, error := some ("Internal Server Error"),
        error_code := some ("UNEXPECTED_ERROR") }

/-- Truthiness of the OPENAI_API_KEY environment value: os.getenv gives None
when unset, and both None and the empty string are falsy. -/
def api_key_present (k : Option String) : Bool :=
  match k with
  | none => false
  | some s => decide (s ≠ "")

/-- Reply of GET /api/health: the HTTP status and, for a 200, the status field
of the body. -/
structure HealthResult where
  httpStatus : Nat
  status : Option String
  deriving DecidableEq

/-- The health_check route (ai_routes.py lines 191-253).  Constructing
OpenAIService raises a ValueError when the key is absent or empty
(openai_service.py lines 16-18); the surrounding except converts that into an
HTTP 503.  Otherwise the body status is healthy exactly when
api_key_configured (true in this branch) and the store count query succeeded. -/
def health_check (apiKeyEnv : Option String) (dbReachable : Bool) : HealthResult :=
  match api_key_present apiKeyEnv with
  | false => { httpStatus := 503, status := none }
  | true =>
    { httpStatus := 200,
      status := some (if api_key_present apiKeyEnv && dbReachable
                      then ("healthy") else ("degraded")) }

/-- The prompt of the C7 counterexample: two letters, fifty newlines, two
letters. -/
def newlineRunPrompt : String :=
  String.mk ([('a'), ('b')] ++ List.replicate 50 ('\n') ++ [('c'), ('d')])

/-- A store state holding one record, used to instantiate theorems that carry
hypotheses. -/
def sampleDB : DBState :=
  { rows := [{ id := 1, prompt := ("p"), response := ("r"),
               timestamp := ("2024-01-01T00:00:00"), model := ("gpt-3.5-turbo") }],
    seq := 1 }

theorem mem_insertDesc (a r : DBRow) (l : List DBRow) :
    a ∈ insertDesc r l ↔ a = r ∨ a ∈ l := by
  induction l with
  | nil => simp [insertDesc]
  | cons x xs ih =>
    simp only [insertDesc]
    split
    · simp [List.mem_cons]
    · simp [List.mem_cons, ih]
      tauto

theorem mem_sortByTimestampDesc (a : DBRow) (l : List DBRow) :
    a ∈ sortByTimestampDesc l ↔ a ∈ l := by
  induction l with
  | nil => simp [sortByTimestampDesc]
  | cons x xs ih => simp [sortByTimestampDesc, mem_insertDesc, ih, List.mem_cons]

theorem hasRunGe_mono (k : Nat) (p q : Char → Bool)
    (hpq : ∀ c, p c = true → q c = true) (l : List Char) :
    hasRunGe k p l = true → hasRunGe k q l = true := by
  induction l with
  | nil => simp [hasRunGe]
  | cons c cs ih =>
    simp only [hasRunGe, Bool.or_eq_true, Bool.and_eq_true]
    rintro (⟨h1, h2⟩ | h3)
    · exact Or.inl ⟨hpq c h1, h2⟩
    · exact Or.inr (ih h3)

theorem attemptOnce_state (model : String) (st : UsageState) (prompt : String)
    (o : UpstreamOutcome) (h : pyStrip prompt ≠ ("")) :
    (attemptOnce model st prompt o).1 =
      { request_count := st.request_count + 1,
        total_tokens_used := st.total_tokens_used + tokensReported o } := by
  cases o with
  | completion content usage =>
    by_cases hc : content = ("")
    · cases usage <;> simp [attemptOnce, h, hc, tokensReported]
    · cases usage <;> simp [attemptOnce, h, hc, tokensReported]
  | authenticationError msg => simp [attemptOnce, h, tokensReported]
  | rateLimitError msg =>
    by_cases hq : containsSub (("quota").data) (toLowerList msg.data) = true <;>
      simp [attemptOnce, h, hq, tokensReported]
  | apiTimeout msg => simp [attemptOnce, h, tokensReported]
  | apiConnection msg => simp [attemptOnce, h, tokensReported]
  | openaiError msg => simp [attemptOnce, h, tokensReported]
  | asyncioTimeout => simp [attemptOnce, h, tokensReported]
  | unexpectedExc msg => simp [attemptOnce, h, tokensReported]

theorem process_result_model_literal (prompt now : String) (g : Except PyExc String)
    (save : Except String Nat) (resp : AskAIResponse) (call : SaveCall)
    (hres : (process_ai_request prompt g save now).result = .ok resp)
    (hcall : (process_ai_request prompt g save now).saveCall = some call) :
    resp.model = ("gpt-3.5-turbo") ∧ call.model = ("gpt-3.5-turbo") := by
  by_cases hp : pyStrip prompt = ("")
  · simp [process_ai_request, hp] at hres
  · cases g with
    | error e => simp [process_ai_request, hp] at hres
    | ok ai =>
      simp [process_ai_request, hp] at hres hcall
      constructor
      · rw [← hres]
      · rw [← hcall]

/-- Claim C1 (code evaluation at the failing input): with an upstream that
raises APITimeoutError on the first two attempts and would succeed on the
third, generate_response fails after exactly one attempt with a RuntimeError:
the body converts the transient exception before the tenacity retry condition
(which matches only APITimeoutError and APIConnectionError) can see it, so no
retry and no backoff ever happens. -/
theorem generate_response_transient_not_retried :
    generate_response ("gpt-3.5-turbo") ("Hello")
      { request_count := 0, total_tokens_used := 0 }
      [UpstreamOutcome.apiTimeout ("Request timed out"),
       UpstreamOutcome.apiTimeout ("Request timed out"),
       UpstreamOutcome.completion ("Hi there") (some 10)] =
    { state := { request_count := 1, total_tokens_used := 0 },
      result := .error (.runtimeError
        ("AI service request timed out. Please try again with a shorter prompt.")),
      attempts := 1 } := by decide

/-- Claim C2: when the AI Client call succeeds, process_ai_request returns the
constructed AIResponse whatever the store save result is; a save failure is
only recorded in the warning log and never propagated. -/
theorem persistence_failure_swallowed (prompt ai now : String)
    (save : Except String Nat) (h : pyStrip prompt ≠ ("")) :
    (process_ai_request prompt (.ok ai) save now).result =
      .ok { prompt := prompt, response := ai, timestamp := now,
            model := ("gpt-3.5-turbo") } ∧
    ∀ msg, save = .error msg →
      (process_ai_request prompt (.ok ai) save now).warnLog =
        some (("Failed to save conversation to database: ") ++ msg) := by
  constructor
  · simp [process_ai_request, h]
  · intro msg hm
    simp [process_ai_request, h, hm]

/-- Witness for C2 at a concrete input with a failing store. -/
theorem persistence_failure_swallowed_witness :
    (process_ai_request ("Hello") (.ok ("Hi there")) (.error ("disk full")) ("t")).result =
      .ok { prompt := ("Hello"), response := ("Hi there"), timestamp := ("t"),
            model := ("gpt-3.5-turbo") } ∧
    (process_ai_request ("Hello") (.ok ("Hi there")) (.error ("disk full")) ("t")).warnLog =
      some ("Failed to save conversation to database: disk full") := by
  have h := persistence_failure_swallowed ("Hello") ("Hi there") ("t")
    (.error ("disk full")) (by decide)
  exact ⟨h.1, h.2 ("disk full") rfl⟩

/-- Claim C3 (counterexample): POST /api/ask-ai with a whitespace-only prompt
does not produce a 400 with error_code EMPTY_PROMPT — the prompt fails inside
the pydantic schema validator, which FastAPI surfaces as a 422. -/
theorem ask_ai_whitespace_not_400_empty_prompt :
    ¬ ((ask_ai ("gpt-3.5-turbo") ("   ") { request_count := 0, total_tokens_used := 0 }
          [] (.ok 1) ("t")).status = 400 ∧
       (ask_ai ("gpt-3.5-turbo") ("   ") { request_count := 0, total_tokens_used := 0 }
          [] (.ok 1) ("t")).error_code = some (("EMPTY_PROMPT"))) := by decide

/-- Claim C3 (amended): a whitespace-only prompt yields HTTP 422 with the
generic validation-error body and no error_code field, for every
configuration, upstream behaviour and store behaviour. -/
theorem ask_ai_whitespace_yields_422 (cfgModel : String) (st : UsageState)
    (outs : List UpstreamOutcome) (save : Except String Nat) (now : String) :
    ask_ai cfgModel ("   ") st outs save now =
      { status := 422, error := some ("Validation Error"), error_code := none } := rfl

/-- Claim C4: saving a conversation and then listing returns a record equal to
the saved one in prompt, response and model, carrying the store-assigned id
and the creation instant passed to save, preserved exactly. -/
theorem save_then_list_roundtrip (st : DBState) (p r m now : String) :
    ∃ rec, rec ∈ get_all_conversations (save_conversation st p r m now).2 ∧
      rec.id = (save_conversation st p r m now).1 ∧ rec.prompt = p ∧
      rec.response = r ∧ rec.model = m ∧ rec.timestamp = now := by
  refine ⟨{ id := st.seq + 1, prompt := p, response := r, timestamp := now,
            model := m }, ?_, rfl, rfl, rfl, rfl, rfl⟩
  unfold get_all_conversations save_conversation
  rw [mem_sortByTimestampDesc]
  simp

/-- Claim C5 (counterexample): the dictionary returned by get_usage_stats has
no user/system split of the counters — neither snake_case nor camelCase user
or system request/token keys occur among its keys. -/
theorem usage_stats_lacks_user_system_counters :
    (("user_requests") ∉ usage_stats_keys) ∧ (("system_requests") ∉ usage_stats_keys) ∧
    (("user_tokens") ∉ usage_stats_keys) ∧ (("system_tokens") ∉ usage_stats_keys) ∧
    (("userRequests") ∉ usage_stats_keys) ∧ (("systemRequests") ∉ usage_stats_keys) ∧
    (("userTokens") ∉ usage_stats_keys) ∧ (("systemTokens") ∉ usage_stats_keys) := by
  decide

/-- Claim C5 (amended): the AI Client keeps exactly two counters; every
attempt whose prompt passes the emptiness check increments request_count by
one before the upstream call, total_tokens_used grows by the reported usage
of a token-bearing successful response (and is unchanged otherwise), and the
usage-stats report exposes exactly the four keys of the source. -/
theorem usage_counters_two_only (model : String) (st : UsageState)
    (prompt : String) (o : UpstreamOutcome) (h : pyStrip prompt ≠ ("")) :
    (attemptOnce model st prompt o).1.request_count = st.request_count + 1 ∧
    (attemptOnce model st prompt o).1.total_tokens_used =
      st.total_tokens_used + tokensReported o ∧
    usage_stats_keys = [("total_requests"), ("total_tokens_used"),
      ("average_tokens_per_request"), ("configuration")] := by
  refine ⟨?_, ?_, rfl⟩
  · rw [attemptOnce_state model st prompt o h]
  · rw [attemptOnce_state model st prompt o h]

/-- Witness for C5 (amended) at a concrete token-bearing completion. -/
theorem usage_counters_two_only_witness :
    (attemptOnce ("m") { request_count := 0, total_tokens_used := 0 } ("Hello")
      (UpstreamOutcome.completion ("Hi") (some 7))).1.request_count = 0 + 1 ∧
    (attemptOnce ("m") { request_count := 0, total_tokens_used := 0 } ("Hello")
      (UpstreamOutcome.completion ("Hi") (some 7))).1.total_tokens_used =
      0 + tokensReported (UpstreamOutcome.completion ("Hi") (some 7)) ∧
    usage_stats_keys = [("total_requests"), ("total_tokens_used"),
      ("average_tokens_per_request"), ("configuration")] :=
  usage_counters_two_only ("m") { request_count := 0, total_tokens_used := 0 }
    ("Hello") (UpstreamOutcome.completion ("Hi") (some 7)) (by decide)

/-- Claim C6 (counterexample): with the API key unconfigured, GET /api/health
does not answer with body status degraded — constructing the OpenAI service
raises, and the route converts that into an HTTP 503. -/
theorem health_check_missing_key_not_degraded :
    (health_check none true).httpStatus = 503 ∧
    (health_check none true).status ≠ some (("degraded")) := by decide

/-- Claim C6 (amended): when the key is configured the body status is healthy
exactly when the store is reachable and degraded otherwise; when the key is
unconfigured the endpoint fails with HTTP 503 instead. -/
theorem health_check_degraded_amended (k : Option String) (db : Bool) :
    (api_key_present k = true →
      health_check k db =
        { httpStatus := 200,
          status := some (if db then ("healthy") else ("degraded")) }) ∧
    (api_key_present k = false →
      health_check k db = { httpStatus := 503, status := none }) := by
  constructor
  · intro h
    simp [health_check, h]
  · intro h
    simp [health_check, h]

/-- Witness for C6 (amended): configured key with unreachable store is
degraded; missing key is a 503. -/
theorem health_check_degraded_amended_witness :
    health_check (some ("sk-test")) false =
      { httpStatus := 200, status := some (("degraded")) } ∧
    health_check none true = { httpStatus := 503, status := none } := by
  constructor
  · have h := (health_check_degraded_amended (some ("sk-test")) false).1 (by decide)
    simpa using h
  · exact (health_check_degraded_amended none true).2 (by decide)

/-- Claim C7 (counterexample): a prompt containing a run of fifty identical
newline characters passes the whole validator — the dot of the repetition
pattern does not match a newline — so not every string with fifty consecutive
identical characters is rejected. -/
theorem repetition_check_misses_newline_run :
    hasRunGe 50 (fun _ => true) newlineRunPrompt.data = true ∧
    validate_prompt newlineRunPrompt = .ok newlineRunPrompt := by decide

/-- Claim C7 (amended): a string that passes the earlier validation steps and
contains fifty or more consecutive identical non-newline characters is
rejected with EXCESSIVE_REPETITION, and a string whose longest run of
identical characters is at most forty-nine is never rejected with
EXCESSIVE_REPETITION. -/
theorem excessive_repetition_boundary (v : String) :
    (v ≠ ("") → pyStrip v ≠ ("") → ¬ (pyStrip v).length < 2 →
      harmfulMatch v.data = false →
      hasRunGe 50 (fun c => c != '\n') v.data = true →
      validate_prompt v = .error .excessiveRepetition) ∧
    (hasRunGe 50 (fun _ => true) v.data = false →
      validate_prompt v ≠ .error .excessiveRepetition) := by
  constructor
  · intro h1 h2 h3 h4 h5
    simp [validate_prompt, h1, h2, h3, h4, h5]
  · intro hnone
    have hcode : hasRunGe 50 (fun c => c != '\n') v.data = false := by
      cases hEq : hasRunGe 50 (fun c => c != '\n') v.data
      · rfl
      · have := hasRunGe_mono 50 (fun c => c != '\n') (fun _ => true)
          (fun c _ => rfl) v.data hEq
        rw [this] at hnone
        cases hnone
    by_cases h1 : v = ("")
    · simp [validate_prompt, h1]
    · by_cases h2 : pyStrip v = ("")
      · simp [validate_prompt, h1, h2]
      · by_cases h3 : (pyStrip v).length < 2
        · simp [validate_prompt, h1, h2, h3]
        · by_cases h4 : harmfulMatch v.data = true
          · simp [validate_prompt, h1, h2, h3, h4]
          · simp [validate_prompt, h1, h2, h3, h4, hcode]

/-- Witness for C7 (amended) at the boundary: fifty identical characters are
rejected with EXCESSIVE_REPETITION, forty-nine are not. -/
theorem excessive_repetition_boundary_witness :
    validate_prompt (String.mk (List.replicate 50 ('a'))) =
      .error .excessiveRepetition ∧
    validate_prompt (String.mk (List.replicate 49 ('a'))) ≠
      .error .excessiveRepetition := by
  constructor
  · exact (excessive_repetition_boundary (String.mk (List.replicate 50 ('a')))).1
      (by decide) (by decide) (by decide) (by decide) (by decide)
  · exact (excessive_repetition_boundary (String.mk (List.replicate 49 ('a')))).2
      (by decide)

/-- Claim C8: on a store with at least one record, clear_all_conversations
returns the pre-deletion count and resets the identifier sequence, so the next
save assigns id 1. -/
theorem clear_all_resets_sequence (st : DBState) (h : st.rows ≠ [])
    (p r m now : String) :
    (clear_all_conversations st).1 = st.rows.length ∧
    (save_conversation (clear_all_conversations st).2 p r m now).1 = 1 := by
  have hpos : 0 < st.rows.length := List.length_pos.mpr h
  constructor
  · simp [clear_all_conversations, hpos]
  · simp [clear_all_conversations, hpos, save_conversation]

/-- Witness for C8 on a one-record store. -/
theorem clear_all_resets_sequence_witness :
    (clear_all_conversations sampleDB).1 = sampleDB.rows.length ∧
    (save_conversation (clear_all_conversations sampleDB).2 ("p2") ("r2") ("m2")
      ("t2")).1 = 1 :=
  clear_all_resets_sequence sampleDB (by decide) ("p2") ("r2") ("m2") ("t2")

/-- Claim C9: whenever the request pipeline succeeds, both the model field of
the returned response and the model argument of the issued save call are the
literal gpt-3.5-turbo, whatever model name is configured and used for the
upstream call. -/
theorem model_field_hardcoded (cfgModel rawPrompt now : String) (st : UsageState)
    (outs : List UpstreamOutcome) (save : Except String Nat)
    (resp : AskAIResponse) (call : SaveCall)
    (hres : (handle_ask cfgModel rawPrompt st outs save now).result = .ok resp)
    (hcall : (handle_ask cfgModel rawPrompt st outs save now).saveCall = some call) :
    resp.model = ("gpt-3.5-turbo") ∧ call.model = ("gpt-3.5-turbo") :=
  process_result_model_literal rawPrompt now
    (generate_response cfgModel rawPrompt st outs).result save resp call hres hcall

/-- Witness for C9 with a configured model other than gpt-3.5-turbo. -/
theorem model_field_hardcoded_witness :
    ({ prompt := ("Hello"), response := ("Hi there"), timestamp := ("t"),
       model := ("gpt-3.5-turbo") } : AskAIResponse).model = ("gpt-3.5-turbo") ∧
    ({ prompt := ("Hello"), response := ("Hi there"),
       model := ("gpt-3.5-turbo") } : SaveCall).model = ("gpt-3.5-turbo") :=
  model_field_hardcoded ("gpt-4o") ("Hello") ("t")
    { request_count := 0, total_tokens_used := 0 }
    [UpstreamOutcome.completion ("Hi there") (some 5)] (.ok 1)
    { prompt := ("Hello"), response := ("Hi there"), timestamp := ("t"),
      model := ("gpt-3.5-turbo") }
    { prompt := ("Hello"), response := ("Hi there"), model := ("gpt-3.5-turbo") }
    (by decide) (by decide)

/-- Claim C10: every reply of GET /api/conversations has total_count equal to
the length of its conversations list. -/
theorem conversations_total_count (st : DBState) :
    (controller_get_all_conversations st).total_count =
      (controller_get_all_conversations st).conversations.length := rfl
